import Mathlib

/-!
Shallow embedding of the ESG-TOOL reporting pipeline
(`esg_tool/models.py`, `esg_tool/services/guidelines.py`,
`esg_tool/agents/*.py`, `esg_tool/workflows/esg_workflow.py`)
and proofs of the specification claims about it.

Conventions of the embedding:
* Python strings are Lean `String`; the Python membership test `pat in s`
  is `pyIn pat s` (substring search), and `str.lower()` is `pyLower`
  (ASCII lowering, which is what `Char.toLower` implements and which is
  the identity on the CJK characters the code matches on).
* Python `float` scores only ever face comparisons against the literals
  `4` and `4.5`, so they are embedded as `ℚ` (exact, decidable order).
* Fallible code returns `Except PyErr`: a missing dictionary key raises
  `PyErr.keyError k` (Python `KeyError`), and the `in` test on `None`
  raises `PyErr.typeError` (Python `TypeError`), mirroring evaluation
  order of the source.
* `uuid4`-based identifiers (`generate_identifier`) and `date.today()`
  are nondeterministic in the source; the embedding threads them in as
  explicit parameters (`RunEnv`), one per creation site per run.
* Insertion-ordered Python dicts are association lists
  (`List (String × α)`); `d[k] = v` is `dictInsert`, `d.get(k, dflt)`
  is `pyDictGet`.
-/

/-! ### Python string primitives -/

/-- Substring search at the character-list level: `subA pat l` is true
iff `pat` occurs contiguously inside `l` (Python `pat in s`). -/
def subA (pat : List Char) : List Char → Bool
  | [] => pat.isEmpty
  | c :: cs => pat.isPrefixOf (c :: cs) || subA pat cs

/-- Python membership test `pat in s` on strings. -/
def pyIn (pat s : String) : Bool := subA pat.data s.data

/-- Python `str.lower()` (ASCII case folding; identity on CJK text). -/
def pyLower (s : String) : String := ⟨s.data.map Char.toLower⟩

/-- Python truthiness default `s or dflt` for an optional string:
both `None` and the empty string fall back to the default. -/
def orDefault (o : Option String) (dflt : String) : String :=
  match o with
  | none => dflt
  | some s => if s.isEmpty then dflt else s

/-- Python `"\n".join(lines)`. -/
def joinLines : List String → String
  | [] => ""
  | [l] => l
  | l :: ls => l ++ "\n" ++ joinLines ls

/-- Python dict assignment `d[k] = v` on an insertion-ordered dict:
updates in place if the key exists, else appends at the end. -/
def dictInsert {α : Type} (d : List (String × α)) (k : String) (v : α) :
    List (String × α) :=
  if d.any (fun p => p.1 == k) then
    d.map (fun p => if p.1 == k then (k, v) else p)
  else d ++ [(k, v)]

/-- Python `d.get(k, dflt)` on an insertion-ordered dict. -/
def pyDictGet {α : Type} (d : List (String × α)) (k : String) (dflt : α) : α :=
  match d.find? (fun p => p.1 == k) with
  | some p => p.2
  | none => dflt

/-! ### Errors raised by the embedded code -/

/-- The Python exceptions the embedded fragment can raise. -/
inductive PyErr where
  /-- `KeyError` from a missing dict key (e.g. `context["company"]`). -/
  | keyError (key : String)
  /-- `TypeError`, e.g. `"制造" in None`. -/
  | typeError (msg : String)
deriving Repr, DecidableEq

instance {ε α : Type} [DecidableEq ε] [DecidableEq α] :
    DecidableEq (Except ε α) := fun
  | .ok a, .ok b =>
    if h : a = b then .isTrue (by rw [h]) else .isFalse (by simp [h])
  | .ok _, .error _ => .isFalse (by simp)
  | .error _, .ok _ => .isFalse (by simp)
  | .error e, .error f =>
    if h : e = f then .isTrue (by rw [h]) else .isFalse (by simp [h])

/-! ### Data model (`esg_tool/models.py`) -/

/-- `models.CompanyProfile`. -/
structure CompanyProfile where
  name : String
  reporting_year : Int
  industry : String
  region : String
  description : Option String := none
  strategy_focus : Option String := none
deriving Repr, DecidableEq

/-- `models.Stakeholder`. -/
structure Stakeholder where
  category : String
  description : String
  expectations : List String
  engagement_channels : List String
  priority : String
deriving Repr, DecidableEq

/-- `models.MaterialTopic` (scores embedded as exact rationals). -/
structure MaterialTopic where
  name : String
  description : String
  sse_reference : Option String := none
  gri_reference : Option String := none
  impact_score : ℚ
  influence_score : ℚ
  notes : Option String := none
deriving Repr, DecidableEq

/-- `models.ProcessDocument`; `identifier` and `created_at` are the
values the generated defaults (`uuid4`, `date.today`) happened to
produce, threaded in explicitly. -/
structure ProcessDocument where
  identifier : String
  title : String
  category : String
  guideline_links : List String := []
  summary : String
  details : List (String × String) := []
  created_at : String
deriving Repr, DecidableEq

/-- `models.MaterialityMatrix`. -/
structure MaterialityMatrix where
  topics : List MaterialTopic
  quadrant_summary : List (String × List String)
deriving Repr, DecidableEq

/-- `models.ESGReportPackage`. -/
structure ESGReportPackage where
  package_id : String
  company : CompanyProfile
  stakeholder_map : List Stakeholder
  materiality_matrix : MaterialityMatrix
  process_documents : List ProcessDocument
  compiled_report : String
deriving Repr, DecidableEq

/-- A peer hint `{"name": ..., "focus": ...}` consumed by the peer
benchmark agent. -/
structure Peer where
  name : String
  focus : String
deriving Repr, DecidableEq

/-! ### Guideline reference data (`esg_tool/services/guidelines.py`) -/

/-- `guidelines.GuidelineReference`. -/
structure GuidelineReference where
  framework : String
  code : String
  description : String
deriving Repr, DecidableEq

/-- `guidelines.guideline_link`. -/
def guideline_link (r : GuidelineReference) : String :=
  r.framework ++ " " ++ r.code ++ " - " ++ r.description

def sse_governance_structure : GuidelineReference :=
  ⟨"SSE", "2.1", "Board responsibilities for sustainability oversight"⟩

def sse_stakeholder_engagement : GuidelineReference :=
  ⟨"SSE", "4.2", "Mechanisms for engagement with key stakeholder groups"⟩

def sse_climate_goals : GuidelineReference :=
  ⟨"SSE", "5.3", "Disclosure of climate transition plans and targets"⟩

def sse_supply_chain : GuidelineReference :=
  ⟨"SSE", "6.1", "Supply chain environmental and social risk management"⟩

def sse_community_investment : GuidelineReference :=
  ⟨"SSE", "7.4", "Community engagement and public welfare initiatives"⟩

/-- `SSE_GUIDELINES.values()` in dict insertion order. -/
def sseGuidelineValues : List GuidelineReference :=
  [sse_governance_structure, sse_stakeholder_engagement, sse_climate_goals,
   sse_supply_chain, sse_community_investment]

def gri_2_9 : GuidelineReference :=
  ⟨"GRI", "2-9", "Governance structure and composition"⟩

def gri_3_1 : GuidelineReference :=
  ⟨"GRI", "3-1", "Process to determine material topics"⟩

def gri_305 : GuidelineReference :=
  ⟨"GRI", "305", "Emissions-related disclosures"⟩

def gri_403 : GuidelineReference :=
  ⟨"GRI", "403", "Occupational health and safety"⟩

def gri_413 : GuidelineReference :=
  ⟨"GRI", "413", "Local communities"⟩

/-- Nonempty-intersection test between the lowered keyword set and a
target set (`keywords & {...}` in the source). -/
def hitsAny (ks targets : List String) : Bool :=
  ks.any (fun k => targets.contains k)

/-- Order-preserving deduplication (the `seen`/`deduped` loop at the end
of `map_topics_to_guidelines`). -/
def dedupKeep (seen : List String) : List String → List String
  | [] => []
  | e :: es =>
    if seen.contains e then dedupKeep seen es
    else e :: dedupKeep (e :: seen) es

/-- `guidelines.map_topics_to_guidelines`. -/
def map_topics_to_guidelines (topic_keywords : List String) : List String :=
  let ks := topic_keywords.map pyLower
  let found :=
    (if hitsAny ks ["governance", "board"] then
      [guideline_link sse_governance_structure, guideline_link gri_2_9]
     else []) ++
    (if hitsAny ks ["stakeholder", "engagement"] then
      [guideline_link sse_stakeholder_engagement, guideline_link gri_3_1]
     else []) ++
    (if hitsAny ks ["climate", "emission", "carbon"] then
      [guideline_link sse_climate_goals, guideline_link gri_305]
     else []) ++
    (if hitsAny ks ["supply", "procurement"] then
      [guideline_link sse_supply_chain]
     else []) ++
    (if hitsAny ks ["community", "social"] then
      [guideline_link sse_community_investment, guideline_link gri_413]
     else []) ++
    (if hitsAny ks ["safety", "health"] then
      [guideline_link gri_403]
     else [])
  dedupKeep [] found

/-! ### Stakeholder analysis agent
(`esg_tool/agents/stakeholder_analysis.py`, the pipeline
`StakeholderAnalysisAgent` exercised by the orchestrator) -/

/-- One entry of the `base` list in `_default_groups`. -/
structure StakeGroup where
  category : String
  description : String
deriving Repr, DecidableEq

def baseGroups : List StakeGroup :=
  [⟨"投资者", "股东及潜在投资人"⟩,
   ⟨"员工", "全职员工、合同工及实习生"⟩,
   ⟨"客户", "核心业务的客户与终端用户"⟩,
   ⟨"供应商", "关键原材料与服务供应商"⟩,
   ⟨"监管机构", "政府、交易所等监管主体"⟩]

def communityGroup : StakeGroup := ⟨"社区与周边居民", "工厂所在地社区与居民"⟩

def associationGroup : StakeGroup := ⟨"行业协会", "金融行业自律和行业组织"⟩

/-- The condition `"制造" in industry or "制造" in profile.description or
"工业" in industry`, with Python's left-to-right short-circuit
evaluation: when the first test fails and `description` is `None`, the
membership test raises `TypeError`. -/
def manufacturingFlag (p : CompanyProfile) (industryL : String) :
    Except PyErr Bool :=
  if pyIn "制造" industryL then Except.ok true
  else
    match p.description with
    | none => Except.error
        (PyErr.typeError "argument of type NoneType is not iterable")
    | some d => Except.ok (pyIn "制造" d || pyIn "工业" industryL)

/-- `StakeholderAnalysisAgent._default_groups`. -/
def default_groups (p : CompanyProfile) : Except PyErr (List StakeGroup) :=
  let industry := pyLower p.industry
  match manufacturingFlag p industry with
  | Except.error e => Except.error e
  | Except.ok manuf =>
    let base := baseGroups
    let base := if manuf then base ++ [communityGroup] else base
    let base := if pyIn "金融" industry then base ++ [associationGroup]
                else base
    Except.ok base

/-- `StakeholderAnalysisAgent._expectations` (dict `.get` with default). -/
def expectationsOf (category : String) : List String :=
  if category == "投资者" then
    ["可持续发展战略与风险管理透明", "符合SSE 2.1要求的董事会治理披露"]
  else if category == "员工" then
    ["职业发展与公平薪酬", "健康与安全保障 (对标GRI-403)"]
  else if category == "客户" then
    ["绿色产品与服务质量", "信息安全与隐私保护"]
  else if category == "供应商" then
    ["负责任采购政策", "供应链碳排透明"]
  else if category == "监管机构" then
    ["合规经营", "履行披露义务"]
  else if category == "社区与周边居民" then
    ["社区沟通机制", "环境影响最小化"]
  else if category == "行业协会" then
    ["同业最佳实践分享", "行业标准制定参与"]
  else ["持续沟通与透明披露"]

/-- `StakeholderAnalysisAgent._channels` (dict `.get` with default). -/
def channelsOf (category : String) : List String :=
  if category == "投资者" then ["年度股东大会", "ESG路演", "可持续发展报告"]
  else if category == "员工" then ["员工大会", "内部社交平台", "满意度调查"]
  else if category == "客户" then ["客户服务热线", "满意度调查", "产品召回机制"]
  else if category == "供应商" then ["供应商大会", "责任供应链协议", "现场审核"]
  else if category == "监管机构" then ["定期信息披露", "专项汇报会"]
  else if category == "社区与周边居民" then
    ["社区开放日", "社区热线", "环境监测公告"]
  else if category == "行业协会" then ["行业论坛", "标准制定工作组"]
  else ["邮件沟通", "定期会议"]

/-- `StakeholderAnalysisAgent._priority`. -/
def priorityOf (category : String) : String :=
  if category == "投资者" || category == "客户" || category == "员工" ||
     category == "监管机构" then "High"
  else if category == "供应商" || category == "社区与周边居民" then "Medium"
  else "Low"

/-- `StakeholderAnalysisAgent._build_entry`. -/
def build_entry (g : StakeGroup) : Stakeholder :=
  { category := g.category
    description := g.description
    expectations := expectationsOf g.category
    engagement_channels := channelsOf g.category
    priority := priorityOf g.category }

/-! ### Materiality agent (`esg_tool/agents/materiality.py`) -/

/-- One literal topic dict from `_suggest_topics`. -/
structure TopicSpec where
  name : String
  description : String
  impact : ℚ
  influence : ℚ
  keywords : List String
deriving Repr, DecidableEq

def default_topic_specs : List TopicSpec :=
  [⟨"公司治理与合规", "董事会结构、风险管理与信息披露", 4.5, 5.0,
    ["governance", "board"]⟩,
   ⟨"气候变化与碳排放管理", "碳减排目标、能源结构与气候风险应对", 4.7, 4.3,
    ["climate", "carbon"]⟩,
   ⟨"员工发展与安全", "员工培训、职业发展及健康安全保障", 4.0, 4.5,
    ["employee", "safety", "health"]⟩,
   ⟨"负责任供应链", "供应商管理、供应链ESG风险评估", 3.8, 4.2,
    ["supply", "procurement"]⟩,
   ⟨"社区共建与社会贡献", "公益投入、社区沟通与乡村振兴", 3.5, 3.9,
    ["community", "social"]⟩]

def greenFinanceSpec : TopicSpec :=
  ⟨"绿色金融与负责任投资", "ESG投资策略、绿色信贷及风险筛查", 4.2, 4.6,
   ["finance", "investment"]⟩

def cleanProductionSpec : TopicSpec :=
  ⟨"清洁生产与循环经济", "节能降耗、废弃物管理和资源回收", 4.3, 4.1,
   ["resource", "waste"]⟩

/-- `MaterialityMatrixAgent._suggest_topics`. The local
`keywords = [industry.lower()] + [s.category ...]` in the source is dead
code (never read after being built) and is omitted; the two industry
checks are on the raw (unlowered) industry string, as in the source. -/
def suggest_topics (industry : String) (_stakeholders : List Stakeholder) :
    List MaterialTopic :=
  let specs := default_topic_specs
    ++ (if pyIn "金融" industry then [greenFinanceSpec] else [])
    ++ (if pyIn "制造" industry || pyIn "工业" industry then
          [cleanProductionSpec] else [])
  specs.map fun t =>
    let links := map_topics_to_guidelines t.keywords
    { name := t.name
      description := t.description
      impact_score := t.impact
      influence_score := t.influence
      sse_reference := links[0]?
      gri_reference := links[1]?
      notes := none }

def labelHH : String := "高影响 / 高重要"
def labelHM : String := "高影响 / 中重要"
def labelMH : String := "中影响 / 高重要"
def labelMM : String := "中影响 / 中重要"

/-- The four name buckets accumulated by the loop in `_build_matrix`. -/
structure Quadrants where
  hh : List String
  hm : List String
  mh : List String
  mm : List String
deriving Repr, DecidableEq

/-- One iteration of the `for topic in topics` loop in `_build_matrix`:
the if/elif chain appends the topic name to exactly one bucket. -/
def placeTopic (q : Quadrants) (t : MaterialTopic) : Quadrants :=
  if 4 ≤ t.impact_score ∧ 4 ≤ t.influence_score then
    { q with hh := q.hh ++ [t.name] }
  else if 4 ≤ t.impact_score then { q with hm := q.hm ++ [t.name] }
  else if 4 ≤ t.influence_score then { q with mh := q.mh ++ [t.name] }
  else { q with mm := q.mm ++ [t.name] }

/-- `MaterialityMatrixAgent._build_matrix`. -/
def build_matrix (topics : List MaterialTopic) : MaterialityMatrix :=
  let q := topics.foldl placeTopic ⟨[], [], [], []⟩
  { topics := topics
    quadrant_summary :=
      [(labelHH, q.hh), (labelHM, q.hm), (labelMH, q.mh), (labelMM, q.mm)] }

/-! ### Policy benchmark agent (`esg_tool/agents/policy_benchmark.py`) -/

/-- Python `filter(None, xs)` over optional strings: keeps exactly the
truthy elements, so it drops `None` and also the empty string. -/
def filterTruthy (xs : List (Option String)) : List String :=
  xs.filterMap (fun o =>
    match o with
    | none => none
    | some s => if s.isEmpty then none else some s)

/-- The detail line written for one topic by `_build_document`
(`references = list(filter(None, [sse_reference, gri_reference]))`). -/
def policyDetailFor (t : MaterialTopic) : String :=
  let coverage := if (4.5 : ℚ) ≤ t.impact_score then "全面覆盖" else "需增强"
  let references := filterTruthy [t.sse_reference, t.gri_reference]
  if references.isEmpty then "政策覆盖程度: " ++ coverage ++ "; 未映射标准"
  else
    "政策覆盖程度: " ++ coverage ++ "; 关键标准: " ++
      String.intercalate ", " references

/-- `PolicyBenchmarkAgent._build_document` (identifier and creation date
are the generated values, passed in). -/
def policy_build_document (docId today company_name : String)
    (matrix : MaterialityMatrix) : ProcessDocument :=
  let details := matrix.topics.foldl
    (fun d t => dictInsert d t.name (policyDetailFor t)) []
  { identifier := docId
    title := "政策对标清单"
    category := "policy_alignment"
    guideline_links := sseGuidelineValues.map guideline_link
    summary :=
      "基于" ++ company_name ++
      "现有政策文本的自动比对，结合《可持续发展报告披露指引与编写指南》" ++
      "核心条款及GRI通用标准，形成政策对标清单，指出高优先级议题的覆盖度和改进方向。"
    details := details
    created_at := today }

/-! ### Peer benchmark agent (`esg_tool/agents/peer_benchmark.py`) -/

/-- `PeerBenchmarkAgent._default_peers` (checks the raw industry). -/
def default_peers (industry : String) : List Peer :=
  if pyIn "金融" industry then
    [⟨"中信银行", "绿色信贷"⟩, ⟨"招商银行", "普惠金融"⟩]
  else if pyIn "制造" industry || pyIn "工业" industry then
    [⟨"上汽集团", "碳中和路线图"⟩, ⟨"三一重工", "智能制造"⟩]
  else [⟨"中国移动", "数字低碳转型"⟩, ⟨"阿里巴巴", "供应链合规"⟩]

/-- `PeerBenchmarkAgent._build_document`. -/
def peer_build_document (docId today : String) (company : CompanyProfile)
    (peers : List Peer) : ProcessDocument :=
  let details := peers.foldl
    (fun d p => dictInsert d p.name
      ("对标要点: " ++ p.focus ++ "；可借鉴披露方式：案例展示+量化指标")) []
  { identifier := docId
    title := "同业对标分析"
    category := "peer_benchmark"
    guideline_links := [guideline_link gri_3_1]
    summary :=
      "针对" ++ company.industry ++
      "行业的同业企业进行ESG披露差距分析，" ++
      "总结可复制的披露结构与关键绩效指标，为报告撰写提供素材。"
    details := details
    created_at := today }

/-! ### Report compiler agent (`esg_tool/agents/report_compiler.py`) -/

/-- One stakeholder bullet appended by the loop in `_compose_report`. -/
def stakeholderLine (s : Stakeholder) : String :=
  "- " ++ s.category ++ " (优先级: " ++ s.priority ++ ")：" ++
  "关注点：" ++ String.intercalate "; " s.expectations ++
  "；沟通渠道：" ++ String.intercalate ", " s.engagement_channels

def topicBullet (name : String) : String := "- " ++ name

def docSummaryLine (d : ProcessDocument) : String :=
  "《" ++ d.title ++ "》摘要：" ++ d.summary

def docIndexLine (d : ProcessDocument) : String :=
  "- " ++ d.title ++ " (" ++ d.identifier ++ ")"

/-- The `lines` list assembled by `_compose_report`: literal header
items, then each `for`-loop's appends as a mapped block. -/
def compose_lines (c : CompanyProfile) (stakeholders : List Stakeholder)
    (matrix : MaterialityMatrix) (documents : List ProcessDocument) :
    List String :=
  [c.name ++ " " ++ toString c.reporting_year ++ "年可持续发展报告草案",
   "一、报告概览",
   "公司概况：" ++ orDefault c.description "（待补充企业描述）",
   "发展战略：" ++ orDefault c.strategy_focus "（待补充战略重点）",
   "二、治理与管理体系 (对应SSE 2.1 / GRI 2-9)",
   "董事会及管理层负责ESG的职责已梳理，正在完善年度考核机制。",
   "三、利益相关方沟通 (对应SSE 4.2 / GRI 3-1)",
   "主要利益相关方列表："]
  ++ stakeholders.map stakeholderLine
  ++ ["四、重要性评估与议题矩阵", "高影响 / 高重要议题："]
  ++ (pyDictGet matrix.quadrant_summary labelHH []).map topicBullet
  ++ ["五、政策对标与改进建议"]
  ++ (documents.filter
        (fun d => d.category == "policy_alignment")).map docSummaryLine
  ++ ["六、同业对标启示"]
  ++ (documents.filter
        (fun d => d.category == "peer_benchmark")).map docSummaryLine
  ++ ["七、下一步行动计划",
      "结合SSE《可持续发展报告披露指引与编写指南》与GRI标准，将形成指标数据收集计划、" ++
        "管理制度更新计划以及对外披露的时间安排。",
      "附录：过程性文件索引"]
  ++ documents.map docIndexLine

/-- `ReportCompilerAgent._compose_report` (`"\n".join(lines)`). -/
def compose_report (c : CompanyProfile) (stakeholders : List Stakeholder)
    (matrix : MaterialityMatrix) (documents : List ProcessDocument) :
    String :=
  joinLines (compose_lines c stakeholders matrix documents)

/-! ### Context, agents and workflow
(`esg_tool/agents/base.py`, `esg_tool/workflows/esg_workflow.py`)

The shared mutable dictionary `AgentContext(Dict[str, Any])` only ever
holds the six keys below in this program, so it is embedded as a record
of optional fields: `none` means "key absent", and `Agent.__call__`'s
`context.update(output)` becomes setting the produced field. -/

/-- The shared context dictionary, one optional field per key used by
the reference pipeline. -/
structure AgentContext where
  company : Option CompanyProfile := none
  peer_inputs : Option (List Peer) := none
  stakeholder_map : Option (List Stakeholder) := none
  materiality_matrix : Option MaterialityMatrix := none
  process_documents : Option (List ProcessDocument) := none
  report_package : Option ESGReportPackage := none
deriving Repr, DecidableEq

/-- `StakeholderAnalysisAgent.run`: `context["company"]` then the
stakeholder map; a missing `company` key raises `KeyError`. -/
def stakeholderRun (ctx : AgentContext) :
    Except PyErr (List Stakeholder) :=
  match ctx.company with
  | none => Except.error (PyErr.keyError "company")
  | some profile =>
    match default_groups profile with
    | Except.error e => Except.error e
    | Except.ok base => Except.ok (base.map build_entry)

/-- `MaterialityMatrixAgent.run`: requires `company`, defaults a missing
`stakeholder_map` to the empty list. -/
def materialityRun (ctx : AgentContext) : Except PyErr MaterialityMatrix :=
  match ctx.company with
  | none => Except.error (PyErr.keyError "company")
  | some profile =>
    let stakeholder_map := ctx.stakeholder_map.getD []
    Except.ok (build_matrix (suggest_topics profile.industry stakeholder_map))

/-- `PolicyBenchmarkAgent.run`: requires `company` then
`materiality_matrix` (in that evaluation order), defaults a missing
`process_documents` to the empty list and appends its new document. -/
def policyRun (docId today : String) (ctx : AgentContext) :
    Except PyErr (List ProcessDocument) :=
  match ctx.company with
  | none => Except.error (PyErr.keyError "company")
  | some company =>
    match ctx.materiality_matrix with
    | none => Except.error (PyErr.keyError "materiality_matrix")
    | some matrix =>
      Except.ok (ctx.process_documents.getD [] ++
        [policy_build_document docId today company.name matrix])

/-- `PeerBenchmarkAgent.run`: requires `company`; a missing
`peer_inputs` defaults to `_default_peers(industry)`; appends its new
document to `process_documents` (defaulted to the empty list). -/
def peerRun (docId today : String) (ctx : AgentContext) :
    Except PyErr (List ProcessDocument) :=
  match ctx.company with
  | none => Except.error (PyErr.keyError "company")
  | some company =>
    let peers := ctx.peer_inputs.getD (default_peers company.industry)
    Except.ok (ctx.process_documents.getD [] ++
      [peer_build_document docId today company peers])

/-- `ReportCompilerAgent.run`: requires `company`, `stakeholder_map` and
`materiality_matrix` (in that evaluation order), defaults
`process_documents`, and assembles the final package. -/
def reportRun (pkgId : String) (ctx : AgentContext) :
    Except PyErr ESGReportPackage :=
  match ctx.company with
  | none => Except.error (PyErr.keyError "company")
  | some company =>
    match ctx.stakeholder_map with
    | none => Except.error (PyErr.keyError "stakeholder_map")
    | some stakeholders =>
      match ctx.materiality_matrix with
      | none => Except.error (PyErr.keyError "materiality_matrix")
      | some matrix =>
        let documents := ctx.process_documents.getD []
        Except.ok
          { package_id := pkgId
            company := company
            stakeholder_map := stakeholders
            materiality_matrix := matrix
            process_documents := documents
            compiled_report :=
              compose_report company stakeholders matrix documents }

/-- The per-run generated values (`uuid4` identifiers and
`date.today()`), one per creation site of a run of the default
pipeline. -/
structure RunEnv where
  policyDocId : String
  peerDocId : String
  packageId : String
  today : String
deriving Repr, DecidableEq

/-- `Agent.__call__` for the stakeholder agent: run, then merge the
returned `{"stakeholder_map": ...}` into the context. -/
def stakeholderCall (ctx : AgentContext) : Except PyErr AgentContext :=
  match stakeholderRun ctx with
  | Except.error e => Except.error e
  | Except.ok sm => Except.ok { ctx with stakeholder_map := some sm }

/-- `Agent.__call__` for the materiality agent. -/
def materialityCall (ctx : AgentContext) : Except PyErr AgentContext :=
  match materialityRun ctx with
  | Except.error e => Except.error e
  | Except.ok m => Except.ok { ctx with materiality_matrix := some m }

/-- `Agent.__call__` for the policy benchmark agent. -/
def policyCall (env : RunEnv) (ctx : AgentContext) :
    Except PyErr AgentContext :=
  match policyRun env.policyDocId env.today ctx with
  | Except.error e => Except.error e
  | Except.ok docs => Except.ok { ctx with process_documents := some docs }

/-- `Agent.__call__` for the peer benchmark agent. -/
def peerCall (env : RunEnv) (ctx : AgentContext) :
    Except PyErr AgentContext :=
  match peerRun env.peerDocId env.today ctx with
  | Except.error e => Except.error e
  | Except.ok docs => Except.ok { ctx with process_documents := some docs }

/-- `Agent.__call__` for the report compiler agent. -/
def reportCall (env : RunEnv) (ctx : AgentContext) :
    Except PyErr AgentContext :=
  match reportRun env.packageId ctx with
  | Except.error e => Except.error e
  | Except.ok pkg => Except.ok { ctx with report_package := some pkg }

/-- Context seeding in `ESGWorkflow.execute`: `{"company": company}`,
plus `peer_inputs` only when given and truthy (`if peer_inputs:` — the
empty list is falsy and is not seeded). -/
def seedContext (p : CompanyProfile) (ps : Option (List Peer)) :
    AgentContext :=
  let ctx : AgentContext := { company := some p }
  match ps with
  | none => ctx
  | some l => if l.isEmpty then ctx else { ctx with peer_inputs := some l }

/-- The `for agent in self.agents: agent(context)` loop. -/
def runAgents (agents : List (AgentContext → Except PyErr AgentContext))
    (ctx : AgentContext) : Except PyErr AgentContext :=
  match agents with
  | [] => Except.ok ctx
  | a :: rest =>
    match a ctx with
    | Except.error e => Except.error e
    | Except.ok ctx2 => runAgents rest ctx2

/-- `ESGWorkflow.execute` for an arbitrary configured agent list: seed,
run each agent, then `context["report_package"]` (a `KeyError` naming
that key if the terminal step did not produce it). -/
def executeAgents
    (agents : List (AgentContext → Except PyErr AgentContext))
    (p : CompanyProfile) (ps : Option (List Peer)) :
    Except PyErr ESGReportPackage :=
  match runAgents agents (seedContext p ps) with
  | Except.error e => Except.error e
  | Except.ok ctx =>
    match ctx.report_package with
    | some pkg => Except.ok pkg
    | none => Except.error (PyErr.keyError "report_package")

/-- `ESGWorkflow._default_agents`. -/
def defaultAgents (env : RunEnv) :
    List (AgentContext → Except PyErr AgentContext) :=
  [stakeholderCall, materialityCall, policyCall env, peerCall env,
   reportCall env]

/-- `ESGWorkflow.execute` with the default agent sequence. -/
def executeWF (env : RunEnv) (p : CompanyProfile)
    (ps : Option (List Peer)) : Except PyErr ESGReportPackage :=
  executeAgents (defaultAgents env) p ps

/-! ### Normal form of a successful default-pipeline run -/

/-- Stakeholder map produced from the groups list. -/
def smOf (groups : List StakeGroup) : List Stakeholder :=
  groups.map build_entry

/-- The `peer_inputs` value actually present in the seeded context. -/
def seededPeers (ps : Option (List Peer)) : Option (List Peer) :=
  match ps with
  | none => none
  | some l => if l.isEmpty then none else some l

/-- The package a successful default-pipeline run assembles, as an
explicit function of the inputs, the generated values and the
stakeholder groups. -/
def mkPackage (env : RunEnv) (p : CompanyProfile)
    (ps : Option (List Peer)) (groups : List StakeGroup) :
    ESGReportPackage :=
  let sm := smOf groups
  let matrix := build_matrix (suggest_topics p.industry sm)
  let policyDoc := policy_build_document env.policyDocId env.today p.name matrix
  let peers := (seededPeers ps).getD (default_peers p.industry)
  let peerDoc := peer_build_document env.peerDocId env.today p peers
  let documents := [policyDoc, peerDoc]
  { package_id := env.packageId
    company := p
    stakeholder_map := sm
    materiality_matrix := matrix
    process_documents := documents
    compiled_report := compose_report p sm matrix documents }

/-! ### Helper lemmas about the string primitives -/

theorem subA_nil (l : List Char) : subA [] l = true := by
  induction l with
  | nil => rfl
  | cons c cs ih => simp [subA, List.isPrefixOf]

theorem isPrefixOf_self_append (p rest : List Char) :
    p.isPrefixOf (p ++ rest) = true := by
  induction p with
  | nil => simp [List.isPrefixOf]
  | cons a as ih => simp [List.isPrefixOf, ih]

theorem isPrefixOf_append_extend (p xs ys : List Char)
    (h : p.isPrefixOf xs = true) : p.isPrefixOf (xs ++ ys) = true := by
  rw [List.isPrefixOf_iff_prefix] at h ⊢
  obtain ⟨t, rfl⟩ := h
  exact ⟨t ++ ys, by rw [List.append_assoc]⟩

theorem subA_append_of_left (pat : List Char) :
    ∀ xs ys : List Char, subA pat xs = true →
      subA pat (xs ++ ys) = true := by
  intro xs
  induction xs with
  | nil =>
    intro ys h
    simp [subA, List.isEmpty_iff] at h
    subst h
    exact subA_nil ys
  | cons c cs ih =>
    intro ys h
    have hgoal : subA pat (c :: (cs ++ ys)) = true := by
      simp only [subA, Bool.or_eq_true] at h ⊢
      cases h with
      | inl h =>
        exact Or.inl (isPrefixOf_append_extend pat (c :: cs) ys h)
      | inr h => exact Or.inr (ih ys h)
    exact hgoal

theorem subA_append_of_right (pat : List Char) :
    ∀ xs ys : List Char, subA pat ys = true →
      subA pat (xs ++ ys) = true := by
  intro xs
  induction xs with
  | nil => intro ys h; simpa using h
  | cons c cs ih =>
    intro ys h
    have hgoal : subA pat (c :: (cs ++ ys)) = true := by
      simp only [subA, Bool.or_eq_true]
      exact Or.inr (ih ys h)
    exact hgoal

theorem isPrefixOf_map (f : Char → Char) (p l : List Char)
    (h : p.isPrefixOf l = true) :
    (p.map f).isPrefixOf (l.map f) = true := by
  rw [List.isPrefixOf_iff_prefix] at h ⊢
  obtain ⟨t, rfl⟩ := h
  exact ⟨t.map f, by rw [← List.map_append]⟩

theorem subA_map (f : Char → Char) (pat : List Char) :
    ∀ l : List Char, subA pat l = true →
      subA (pat.map f) (l.map f) = true := by
  intro l
  induction l with
  | nil =>
    intro h
    simp [subA, List.isEmpty_iff] at h
    subst h
    simp [subA, List.isEmpty_iff]
  | cons c cs ih =>
    intro h
    simp only [subA, Bool.or_eq_true, List.map_cons] at h ⊢
    cases h with
    | inl h =>
      rw [List.isPrefixOf_iff_prefix] at h ⊢
      obtain ⟨t, ht⟩ := h
      refine Or.inl ⟨t.map f, ?_⟩
      rw [← List.map_append]
      rw [show pat ++ t = c :: cs from ht]
      rfl
    | inr h => exact Or.inr (ih h)

theorem pyIn_append_of_left (pat s t : String) (h : pyIn pat s = true) :
    pyIn pat (s ++ t) = true := by
  unfold pyIn at h ⊢
  rw [String.data_append]
  exact subA_append_of_left _ _ _ h

theorem pyIn_append_of_right (pat s t : String) (h : pyIn pat t = true) :
    pyIn pat (s ++ t) = true := by
  unfold pyIn at h ⊢
  rw [String.data_append]
  exact subA_append_of_right _ _ _ h

/-- If the pattern is untouched by ASCII case folding (e.g. pure CJK
text), occurrence in `s` implies occurrence in `s.lower()`. -/
theorem pyIn_pyLower_of_fixed (pat s : String)
    (hfix : pat.data.map Char.toLower = pat.data)
    (h : pyIn pat s = true) : pyIn pat (pyLower s) = true := by
  have hm := subA_map Char.toLower pat.data s.data h
  rw [hfix] at hm
  exact hm

theorem pyIn_joinLines_head (pat l : String) (ls : List String)
    (h : pyIn pat l = true) : pyIn pat (joinLines (l :: ls)) = true := by
  cases ls with
  | nil => simpa [joinLines] using h
  | cons l2 ls2 =>
    show pyIn pat (l ++ "\n" ++ joinLines (l2 :: ls2)) = true
    exact pyIn_append_of_left _ _ _ (pyIn_append_of_left _ _ _ h)

/-! ### Normal-form lemmas for the default pipeline -/

/-- The groups list `_default_groups` returns when `description` is an
actual string (then no `TypeError` is possible). -/
def stakeGroupsOf (p : CompanyProfile) (d : String) : List StakeGroup :=
  let industryL := pyLower p.industry
  let manuf := pyIn "制造" industryL || (pyIn "制造" d || pyIn "工业" industryL)
  let b1 := if manuf then baseGroups ++ [communityGroup] else baseGroups
  if pyIn "金融" industryL then b1 ++ [associationGroup] else b1

theorem default_groups_of_some (p : CompanyProfile) (d : String)
    (hd : p.description = some d) :
    default_groups p = Except.ok (stakeGroupsOf p d) := by
  unfold default_groups manufacturingFlag stakeGroupsOf
  rw [hd]
  by_cases h : pyIn "制造" (pyLower p.industry) = true
  · simp [h]
  · simp [h]

/-- The context as it stands when the terminal report-compiler step
runs, for a successful default-pipeline run. -/
def ctxBeforeReport (env : RunEnv) (p : CompanyProfile)
    (ps : Option (List Peer)) (groups : List StakeGroup) : AgentContext :=
  let sm := smOf groups
  let matrix := build_matrix (suggest_topics p.industry sm)
  let policyDoc := policy_build_document env.policyDocId env.today p.name matrix
  let peers := (seededPeers ps).getD (default_peers p.industry)
  let peerDoc := peer_build_document env.peerDocId env.today p peers
  { company := some p
    peer_inputs := seededPeers ps
    stakeholder_map := some sm
    materiality_matrix := some matrix
    process_documents := some [policyDoc, peerDoc]
    report_package := none }

theorem seedContext_eq (p : CompanyProfile) (ps : Option (List Peer)) :
    seedContext p ps =
      { company := some p, peer_inputs := seededPeers ps } := by
  cases ps with
  | none => rfl
  | some l => by_cases h : l.isEmpty <;> simp [seedContext, seededPeers, h]

theorem runAgents_append
    (as bs : List (AgentContext → Except PyErr AgentContext))
    (ctx : AgentContext) :
    runAgents (as ++ bs) ctx =
      match runAgents as ctx with
      | Except.error e => Except.error e
      | Except.ok ctx2 => runAgents bs ctx2 := by
  induction as generalizing ctx with
  | nil => simp [runAgents]
  | cons a as ih =>
    simp only [List.cons_append, runAgents]
    cases a ctx with
    | error e => rfl
    | ok ctx2 => exact ih ctx2

theorem runAgentsFour_eq (env : RunEnv) (p : CompanyProfile)
    (ps : Option (List Peer)) :
    runAgents [stakeholderCall, materialityCall, policyCall env,
        peerCall env] (seedContext p ps) =
      match default_groups p with
      | Except.error e => Except.error e
      | Except.ok groups => Except.ok (ctxBeforeReport env p ps groups) := by
  rw [seedContext_eq]
  cases h : default_groups p with
  | error e => simp [runAgents, stakeholderCall, stakeholderRun, h]
  | ok groups =>
    simp [runAgents, stakeholderCall, stakeholderRun, h, materialityCall,
      materialityRun, policyCall, policyRun, peerCall, peerRun,
      ctxBeforeReport, smOf, Option.getD_some, Option.getD_none]

theorem reportCall_ctxBefore (env : RunEnv) (p : CompanyProfile)
    (ps : Option (List Peer)) (groups : List StakeGroup) :
    reportCall env (ctxBeforeReport env p ps groups) =
      Except.ok { ctxBeforeReport env p ps groups with
        report_package := some (mkPackage env p ps groups) } := by
  simp [reportCall, reportRun, ctxBeforeReport, mkPackage, compose_report]

/-- A run of `ESGWorkflow.execute` with the default agents either
propagates the stakeholder step's `TypeError` or returns the package in
`mkPackage` normal form. -/
theorem executeWF_eq (env : RunEnv) (p : CompanyProfile)
    (ps : Option (List Peer)) :
    executeWF env p ps =
      match default_groups p with
      | Except.error e => Except.error e
      | Except.ok groups => Except.ok (mkPackage env p ps groups) := by
  unfold executeWF
  rw [show defaultAgents env =
    [stakeholderCall, materialityCall, policyCall env, peerCall env] ++
      [reportCall env] from rfl]
  unfold executeAgents
  rw [runAgents_append, runAgentsFour_eq]
  cases h : default_groups p with
  | error e => rfl
  | ok groups =>
    simp [runAgents, reportCall_ctxBefore]

/-! ### Sample inputs used by concrete instantiations -/

def sampleEnv : RunEnv :=
  ⟨"doc-11111111", "doc-22222222", "pkg-33333333", "2026-10-12"⟩

/-- A profile with no description and an industry that triggers none of
the keyword branches. -/
def techProfileNoDesc : CompanyProfile :=
  { name := "示例公司", reporting_year := 2024, industry := "科技",
    region := "上海", description := none, strategy_focus := none }

/-! ### Claim C1 -/

/-- Claim C1 states that a pipeline run never raises when the profile's
description is `None` or empty.  The code violates the `None` half: when
the industry does not contain "制造", `_default_groups` evaluates
`"制造" in profile.description`, which raises `TypeError` on `None`.
This theorem evaluates the embedded pipeline at such a profile and shows
the run aborts with that `TypeError` instead of producing a stakeholder
map. -/
theorem c1_pipeline_raises_on_none_description :
    executeWF sampleEnv techProfileNoDesc none =
      Except.error
        (PyErr.typeError "argument of type NoneType is not iterable") := by
  rfl

/-! ### Claim C2 -/

/-- Top-quadrant membership as a pure function of the two scores. -/
def inHH (t : MaterialTopic) : Bool :=
  decide (4 ≤ t.impact_score) && decide (4 ≤ t.influence_score)

/-- High-impact / mid-influence membership. -/
def inHM (t : MaterialTopic) : Bool :=
  decide (4 ≤ t.impact_score) && !decide (4 ≤ t.influence_score)

/-- Mid-impact / high-influence membership. -/
def inMH (t : MaterialTopic) : Bool :=
  !decide (4 ≤ t.impact_score) && decide (4 ≤ t.influence_score)

/-- Lowest-quadrant membership. -/
def inMM (t : MaterialTopic) : Bool :=
  !decide (4 ≤ t.impact_score) && !decide (4 ≤ t.influence_score)

theorem foldl_placeTopic (ts : List MaterialTopic) :
    ∀ q : Quadrants, ts.foldl placeTopic q =
      ⟨q.hh ++ (ts.filter inHH).map MaterialTopic.name,
       q.hm ++ (ts.filter inHM).map MaterialTopic.name,
       q.mh ++ (ts.filter inMH).map MaterialTopic.name,
       q.mm ++ (ts.filter inMM).map MaterialTopic.name⟩ := by
  induction ts with
  | nil => intro q; simp
  | cons t ts ih =>
    intro q
    rw [List.foldl_cons, ih]
    by_cases h1 : 4 ≤ t.impact_score <;>
      by_cases h2 : 4 ≤ t.influence_score <;>
        simp [placeTopic, inHH, inHM, inMH, inMM, h1, h2, List.filter_cons,
          List.append_assoc]

theorem quadrant_filter_length (ts : List MaterialTopic) :
    (ts.filter inHH).length + (ts.filter inHM).length +
      (ts.filter inMH).length + (ts.filter inMM).length = ts.length := by
  induction ts with
  | nil => rfl
  | cons t ts ih =>
    by_cases h1 : 4 ≤ t.impact_score <;>
      by_cases h2 : 4 ≤ t.influence_score <;>
        simp [inHH, inHM, inMH, inMM, h1, h2, List.filter_cons] <;> omega

/-- Claim C2: in `_build_matrix`, quadrant placement is a pure function
of the pair (impact_score, influence_score) with thresholds at 4 on
each axis (top quadrant iff both ≥ 4; high-impact/mid iff impact ≥ 4
and influence < 4; mid/high-influence iff impact < 4 and influence ≥ 4;
lowest otherwise), every topic lands in exactly one bucket, and the four
buckets partition the topic list (counts sum to the input length, each
bucket listing names in input order). -/
theorem c2_quadrant_partition (ts : List MaterialTopic) :
    (build_matrix ts).topics = ts ∧
    (build_matrix ts).quadrant_summary =
      [(labelHH, (ts.filter inHH).map MaterialTopic.name),
       (labelHM, (ts.filter inHM).map MaterialTopic.name),
       (labelMH, (ts.filter inMH).map MaterialTopic.name),
       (labelMM, (ts.filter inMM).map MaterialTopic.name)] ∧
    (∀ t ∈ ts,
      (inHH t).toNat + (inHM t).toNat + (inMH t).toNat + (inMM t).toNat
        = 1) ∧
    (ts.filter inHH).length + (ts.filter inHM).length +
      (ts.filter inMH).length + (ts.filter inMM).length = ts.length ∧
    (∀ t1 t2 : MaterialTopic, t1.impact_score = t2.impact_score →
      t1.influence_score = t2.influence_score →
      inHH t1 = inHH t2 ∧ inHM t1 = inHM t2 ∧ inMH t1 = inMH t2 ∧
        inMM t1 = inMM t2) := by
  refine ⟨rfl, ?_, ?_, quadrant_filter_length ts, ?_⟩
  · show (build_matrix ts).quadrant_summary = _
    unfold build_matrix
    rw [foldl_placeTopic ts ⟨[], [], [], []⟩]
    simp
  · intro t _
    by_cases h1 : 4 ≤ t.impact_score <;>
      by_cases h2 : 4 ≤ t.influence_score <;>
        simp [inHH, inHM, inMH, inMM, h1, h2]
  · intro t1 t2 hi hf
    unfold inHH inHM inMH inMM
    rw [hi, hf]
    exact ⟨rfl, rfl, rfl, rfl⟩

/-- A topic with a high impact score and sub-threshold influence. -/
def topicA : MaterialTopic :=
  { name := "议题A", description := "说明A", impact_score := 4.5,
    influence_score := 3.9 }

theorem c2_witness :
    (build_matrix [topicA]).quadrant_summary =
      [(labelHH, []), (labelHM, ["议题A"]), (labelMH, []), (labelMM, [])] := by
  rw [(c2_quadrant_partition [topicA]).2.1]
  norm_num [List.filter_cons, inHH, inHM, inMH, inMM, topicA]

/-! ### Claim C3 -/

/-- The compiled narrative starts with the title line, so any pattern
occurring in the title occurs in the narrative. -/
theorem pyIn_compose_report_head (pat : String) (c : CompanyProfile)
    (ss : List Stakeholder) (m : MaterialityMatrix)
    (ds : List ProcessDocument)
    (h : pyIn pat (c.name ++ " " ++ toString c.reporting_year ++
      "年可持续发展报告草案") = true) :
    pyIn pat (compose_report c ss m ds) = true :=
  pyIn_joinLines_head pat _ _ h

/-- The end-to-end scenario profile of the spec (year and region are not
fixed by the scenario; representative values are used). -/
def manufacturingProfile : CompanyProfile :=
  { name := "示例制造", reporting_year := 2024, industry := "制造业",
    region := "上海", description := some "大型制造企业",
    strategy_focus := none }

/-- The groups `_default_groups` yields for `manufacturingProfile`. -/
def manufacturingGroups : List StakeGroup := baseGroups ++ [communityGroup]

/-- Claim C3: for the profile 示例制造 / 制造业 / 大型制造企业, the full
pipeline succeeds and, whatever identifiers and date are generated, the
stakeholder map contains the community category, the materiality matrix
contains the clean-production topic, exactly one process document is
tagged `policy_alignment` and exactly one `peer_benchmark`, and the
compiled narrative contains the company name and the reporting year. -/
theorem c3_manufacturing_scenario (env : RunEnv) :
    ∃ pkg : ESGReportPackage,
      executeWF env manufacturingProfile none = Except.ok pkg ∧
      "社区与周边居民" ∈ pkg.stakeholder_map.map Stakeholder.category ∧
      "清洁生产与循环经济" ∈
        pkg.materiality_matrix.topics.map MaterialTopic.name ∧
      (pkg.process_documents.filter
        (fun d => d.category == "policy_alignment")).length = 1 ∧
      (pkg.process_documents.filter
        (fun d => d.category == "peer_benchmark")).length = 1 ∧
      pyIn "示例制造" pkg.compiled_report = true ∧
      pyIn "2024" pkg.compiled_report = true := by
  refine ⟨mkPackage env manufacturingProfile none manufacturingGroups,
    ?_, ?_, ?_, ?_, ?_, ?_, ?_⟩
  · rw [executeWF_eq,
      show default_groups manufacturingProfile =
        Except.ok manufacturingGroups from rfl]
  · show "社区与周边居民" ∈
      (smOf manufacturingGroups).map Stakeholder.category
    decide
  · show "清洁生产与循环经济" ∈
      (build_matrix (suggest_topics manufacturingProfile.industry
        (smOf manufacturingGroups))).topics.map MaterialTopic.name
    decide
  · show (List.filter (fun d => d.category == "policy_alignment")
      [policy_build_document env.policyDocId env.today
        manufacturingProfile.name
        (build_matrix (suggest_topics manufacturingProfile.industry
          (smOf manufacturingGroups))),
       peer_build_document env.peerDocId env.today manufacturingProfile
        ((seededPeers none).getD
          (default_peers manufacturingProfile.industry))]).length = 1
    simp [policy_build_document, peer_build_document, List.filter_cons]
  · show (List.filter (fun d => d.category == "peer_benchmark")
      [policy_build_document env.policyDocId env.today
        manufacturingProfile.name
        (build_matrix (suggest_topics manufacturingProfile.industry
          (smOf manufacturingGroups))),
       peer_build_document env.peerDocId env.today manufacturingProfile
        ((seededPeers none).getD
          (default_peers manufacturingProfile.industry))]).length = 1
    simp [policy_build_document, peer_build_document, List.filter_cons]
  · exact pyIn_compose_report_head _ _ _ _ _ (by decide)
  · exact pyIn_compose_report_head _ _ _ _ _ (by decide)

/-! ### Claim C4 -/

/-- Claim C4: for any configured agent list, once the agents have run,
`execute` requires the `report_package` key: if the final context lacks
it, `execute` fails with a `KeyError` naming `report_package` (never a
default), and if it is present the package is returned as-is. -/
theorem c4_report_package_contract
    (agents : List (AgentContext → Except PyErr AgentContext))
    (p : CompanyProfile) (ps : Option (List Peer)) (ctx : AgentContext)
    (hrun : runAgents agents (seedContext p ps) = Except.ok ctx) :
    (ctx.report_package = none →
      executeAgents agents p ps =
        Except.error (PyErr.keyError "report_package")) ∧
    (∀ pkg : ESGReportPackage, ctx.report_package = some pkg →
      executeAgents agents p ps = Except.ok pkg) := by
  unfold executeAgents
  rw [hrun]
  constructor
  · intro h
    simp [h]
  · intro pkg h
    simp [h]

theorem c4_witness :
    runAgents [] (seedContext techProfileNoDesc none) =
      Except.ok (seedContext techProfileNoDesc none) ∧
    executeAgents [] techProfileNoDesc none =
      Except.error (PyErr.keyError "report_package") :=
  ⟨rfl,
   (c4_report_package_contract [] techProfileNoDesc none
      (seedContext techProfileNoDesc none) rfl).1 rfl⟩

/-! ### Claim C5 -/

/-- Claim C5: when the `company` key is absent each step fails
immediately with `KeyError "company"` and never substitutes a default,
while the genuinely optional keys are silently defaulted: the
materiality step defaults a missing `stakeholder_map` to the empty
list, the policy/peer/report steps default missing `process_documents`
to the empty list, and the peer step defaults missing `peer_inputs` to
the industry default peers. -/
theorem c5_required_vs_optional :
    (∀ ctx : AgentContext, ctx.company = none →
      stakeholderRun ctx = Except.error (PyErr.keyError "company") ∧
      materialityRun ctx = Except.error (PyErr.keyError "company") ∧
      (∀ docId today : String, policyRun docId today ctx =
        Except.error (PyErr.keyError "company")) ∧
      (∀ docId today : String, peerRun docId today ctx =
        Except.error (PyErr.keyError "company")) ∧
      (∀ pkgId : String, reportRun pkgId ctx =
        Except.error (PyErr.keyError "company"))) ∧
    (∀ ctx : AgentContext,
      materialityRun { ctx with stakeholder_map := none } =
        materialityRun { ctx with stakeholder_map := some [] }) ∧
    (∀ (ctx : AgentContext) (docId today : String),
      policyRun docId today { ctx with process_documents := none } =
        policyRun docId today { ctx with process_documents := some [] } ∧
      peerRun docId today { ctx with process_documents := none } =
        peerRun docId today { ctx with process_documents := some [] }) ∧
    (∀ (pkgId : String) (ctx : AgentContext),
      reportRun pkgId { ctx with process_documents := none } =
        reportRun pkgId { ctx with process_documents := some [] }) ∧
    (∀ (ctx : AgentContext) (c : CompanyProfile) (docId today : String),
      ctx.company = some c →
      peerRun docId today { ctx with peer_inputs := none } =
        peerRun docId today
          { ctx with peer_inputs := some (default_peers c.industry) }) := by
  refine ⟨?_, ?_, ?_, ?_, ?_⟩
  · intro ctx h
    exact ⟨by simp [stakeholderRun, h], by simp [materialityRun, h],
      fun docId today => by simp [policyRun, h],
      fun docId today => by simp [peerRun, h],
      fun pkgId => by simp [reportRun, h]⟩
  · intro ctx
    simp [materialityRun]
  · intro ctx docId today
    constructor
    · simp [policyRun]
    · simp [peerRun]
  · intro pkgId ctx
    simp [reportRun]
  · intro ctx c docId today h
    simp [peerRun, h]

/-- The empty context (no keys set). -/
def emptyContext : AgentContext := {}

theorem c5_witness :
    stakeholderRun emptyContext =
      Except.error (PyErr.keyError "company") :=
  ((c5_required_vs_optional).1 emptyContext rfl).1

/-! ### Claim C6 -/

/-- Building an insertion-ordered dict by repeated `d[k] = v` over
entries with pairwise-distinct keys, all fresh for the accumulator,
just appends the key/value pairs in order. -/
theorem foldl_dictInsert_nodup {β : Type} (key : β → String)
    (val : β → String) :
    ∀ (ts : List β) (d : List (String × String)),
      (∀ b ∈ ts, ∀ pr ∈ d, pr.1 ≠ key b) →
      (ts.map key).Nodup →
      ts.foldl (fun acc b => dictInsert acc (key b) (val b)) d =
        d ++ ts.map (fun b => (key b, val b)) := by
  intro ts
  induction ts with
  | nil => intro d _ _; simp
  | cons b ts ih =>
    intro d hd hnd
    rw [List.foldl_cons]
    have hstep : dictInsert d (key b) (val b) = d ++ [(key b, val b)] := by
      unfold dictInsert
      rw [if_neg]
      simp only [List.any_eq_true, beq_iff_eq, not_exists, not_and]
      intro pr hpr
      exact hd b (List.mem_cons_self b ts) pr hpr
    rw [hstep]
    rw [ih (d ++ [(key b, val b)]) ?_ ?_]
    · simp
    · intro b' hb' pr hpr
      rcases List.mem_append.mp hpr with hin | hin
      · exact hd b' (List.mem_cons_of_mem b hb') pr hin
      · have hpr1 : pr = (key b, val b) := by simpa using hin
        subst hpr1
        have hkb : key b ∉ ts.map key := by
          have hx := hnd
          rw [List.map_cons, List.nodup_cons] at hx
          exact hx.1
        intro hcontra
        refine hkb ?_
        rw [show key b = key b' from hcontra]
        exact List.mem_map_of_mem key hb'
    · have := hnd
      rw [List.map_cons, List.nodup_cons] at this
      exact this.2

/-- Claim C6: for every topic of the materiality matrix (with the
topics' names pairwise distinct, as produced by the pipeline), the
policy benchmark step records the detail line classifying coverage as
全面覆盖 exactly when `impact_score ≥ 4.5` and 需增强 otherwise, listing
the resolved guideline references, or the explicit 未映射标准 marker
when there are none (a reference that is absent or the empty string
counts as unresolved, per the source's truthiness filter
`filter(None, ...)`); and the step appends exactly one new document,
tagged `policy_alignment`, after the pre-existing `process_documents`
(defaulting to the empty list). -/
theorem c6_policy_benchmark (docId today : String) (ctx : AgentContext)
    (c : CompanyProfile) (m : MaterialityMatrix)
    (hc : ctx.company = some c) (hm : ctx.materiality_matrix = some m)
    (hnd : (m.topics.map MaterialTopic.name).Nodup) :
    policyRun docId today ctx =
      Except.ok (ctx.process_documents.getD [] ++
        [policy_build_document docId today c.name m]) ∧
    (policy_build_document docId today c.name m).category =
      "policy_alignment" ∧
    (policy_build_document docId today c.name m).details =
      m.topics.map (fun t =>
        (t.name,
          let coverage :=
            if (4.5 : ℚ) ≤ t.impact_score then "全面覆盖" else "需增强"
          let references := filterTruthy [t.sse_reference, t.gri_reference]
          if references.isEmpty then
            "政策覆盖程度: " ++ coverage ++ "; 未映射标准"
          else
            "政策覆盖程度: " ++ coverage ++ "; 关键标准: " ++
              String.intercalate ", " references)) := by
  refine ⟨by simp [policyRun, hc, hm], rfl, ?_⟩
  show (m.topics.foldl
      (fun d t => dictInsert d t.name (policyDetailFor t)) []) = _
  rw [foldl_dictInsert_nodup MaterialTopic.name policyDetailFor m.topics []
    (by intro b _ pr hpr; cases hpr) hnd]
  simp [policyDetailFor]

/-- A topic with no resolved references. -/
def topicB : MaterialTopic := ⟨"议题B", "说明B", none, none, 4.0, 4.0, none⟩

/-- A one-topic matrix. -/
def matB : MaterialityMatrix := ⟨[topicB], []⟩

/-- A context holding a company and `matB`, with no process documents. -/
def ctxC6 : AgentContext :=
  { company := some techProfileNoDesc, materiality_matrix := some matB }

theorem c6_witness :
    policyRun "doc-x" "2026-10-12" ctxC6 =
      Except.ok (ctxC6.process_documents.getD [] ++
        [policy_build_document "doc-x" "2026-10-12"
          techProfileNoDesc.name matB]) :=
  (c6_policy_benchmark "doc-x" "2026-10-12" ctxC6 techProfileNoDesc matB
    rfl rfl (by decide)).1

/-! ### Claim C7 -/

/-- A finance-industry profile with no description. -/
def financeProfileNoDesc : CompanyProfile :=
  { name := "示例金融", reporting_year := 2024, industry := "金融",
    region := "北京", description := none, strategy_focus := none }

/-- Claim C7 as stated quantifies over every profile whose industry
contains "金融"; for such a profile whose `description` is `None` the
pipeline aborts with a `TypeError` in the stakeholder step (the same
slip as claim C1), so no stakeholder map, matrix or peer document is
produced at all and the claim fails at this input. -/
theorem c7_counterexample :
    pyIn "金融" financeProfileNoDesc.industry = true ∧
    executeWF sampleEnv financeProfileNoDesc none =
      Except.error
        (PyErr.typeError "argument of type NoneType is not iterable") :=
  ⟨by decide, by rfl⟩

/-- Claim C7, amended to profiles whose description is present (the
most the counterexample forces): for every such profile whose industry
contains "金融" and with no peer inputs supplied, the run succeeds, the
stakeholder map includes the 行业协会 category, the materiality matrix
includes the green-finance topic, and the peer-benchmark document is
built from the finance-specific default peer pair. -/
theorem c7_finance_scenario (env : RunEnv) (p : CompanyProfile)
    (d : String) (hd : p.description = some d)
    (hfin : pyIn "金融" p.industry = true) :
    executeWF env p none =
      Except.ok (mkPackage env p none (stakeGroupsOf p d)) ∧
    "行业协会" ∈
      (mkPackage env p none (stakeGroupsOf p d)).stakeholder_map.map
        Stakeholder.category ∧
    "绿色金融与负责任投资" ∈
      (mkPackage env p none
        (stakeGroupsOf p d)).materiality_matrix.topics.map
        MaterialTopic.name ∧
    (mkPackage env p none (stakeGroupsOf p d)).process_documents.filter
        (fun doc => doc.category == "peer_benchmark") =
      [peer_build_document env.peerDocId env.today p
        [⟨"中信银行", "绿色信贷"⟩, ⟨"招商银行", "普惠金融"⟩]] := by
  have hfinL : pyIn "金融" (pyLower p.industry) = true :=
    pyIn_pyLower_of_fixed _ _ (by decide) hfin
  refine ⟨?_, ?_, ?_, ?_⟩
  · rw [executeWF_eq, default_groups_of_some p d hd]
  · show "行业协会" ∈ (smOf (stakeGroupsOf p d)).map Stakeholder.category
    simp only [smOf, stakeGroupsOf]
    rw [if_pos hfinL]
    rw [List.map_append, List.map_append]
    refine List.mem_append_right _ ?_
    decide
  · show "绿色金融与负责任投资" ∈
      (suggest_topics p.industry (smOf (stakeGroupsOf p d))).map
        MaterialTopic.name
    simp only [suggest_topics]
    rw [if_pos hfin]
    refine List.mem_map.mpr ⟨_, List.mem_map.mpr ⟨greenFinanceSpec, ?_, rfl⟩,
      rfl⟩
    exact List.mem_append_left _
      (List.mem_append_right _ (List.mem_singleton.mpr rfl))
  · show (List.filter (fun doc => doc.category == "peer_benchmark")
      [policy_build_document env.policyDocId env.today p.name
        (build_matrix (suggest_topics p.industry (smOf (stakeGroupsOf p d)))),
       peer_build_document env.peerDocId env.today p
        ((seededPeers none).getD (default_peers p.industry))]) = _
    have hpeers : (seededPeers none).getD (default_peers p.industry) =
        [⟨"中信银行", "绿色信贷"⟩, ⟨"招商银行", "普惠金融"⟩] := by
      show default_peers p.industry = _
      unfold default_peers
      rw [if_pos hfin]
    rw [hpeers]
    simp [policy_build_document, peer_build_document, List.filter_cons]

/-- A finance profile with a description present. -/
def financeProfileB : CompanyProfile :=
  { name := "示例银行", reporting_year := 2025, industry := "金融",
    region := "北京", description := some "一家银行",
    strategy_focus := none }

theorem c7_witness :
    executeWF sampleEnv financeProfileB none =
      Except.ok (mkPackage sampleEnv financeProfileB none
        (stakeGroupsOf financeProfileB "一家银行")) :=
  (c7_finance_scenario sampleEnv financeProfileB "一家银行" rfl
    (by decide)).1

/-! ### Claim C8 -/

/-- Claim C8: two runs with identical profile and peer inputs produce
structurally identical stakeholder maps and materiality matrices
(deterministic content), while each run's package identifier and
document identifiers are exactly that run's generated values — so they
differ between the runs whenever the generated values differ. -/
theorem c8_two_runs (env1 env2 : RunEnv) (p : CompanyProfile)
    (ps : Option (List Peer)) (pkg1 pkg2 : ESGReportPackage)
    (h1 : executeWF env1 p ps = Except.ok pkg1)
    (h2 : executeWF env2 p ps = Except.ok pkg2) :
    pkg1.stakeholder_map = pkg2.stakeholder_map ∧
    pkg1.materiality_matrix = pkg2.materiality_matrix ∧
    pkg1.package_id = env1.packageId ∧
    pkg2.package_id = env2.packageId ∧
    pkg1.process_documents.map ProcessDocument.identifier =
      [env1.policyDocId, env1.peerDocId] ∧
    pkg2.process_documents.map ProcessDocument.identifier =
      [env2.policyDocId, env2.peerDocId] ∧
    (env1.packageId ≠ env2.packageId →
      pkg1.package_id ≠ pkg2.package_id) := by
  rw [executeWF_eq] at h1 h2
  cases hdg : default_groups p with
  | error e =>
    rw [hdg] at h1
    simp at h1
  | ok groups =>
    rw [hdg] at h1 h2
    simp only [Except.ok.injEq] at h1 h2
    subst h1
    subst h2
    refine ⟨rfl, rfl, rfl, rfl, rfl, rfl, ?_⟩
    intro hne h
    exact hne h

/-- Two concrete generated-value environments that differ. -/
def envA : RunEnv := ⟨"doc-aaaa0001", "doc-aaaa0002", "pkg-aaaa0003",
  "2026-10-12"⟩

def envB : RunEnv := ⟨"doc-bbbb0001", "doc-bbbb0002", "pkg-bbbb0003",
  "2026-10-13"⟩

/-- The packages of the two runs of `manufacturingProfile` under the
two environments. -/
def pkgA : ESGReportPackage :=
  mkPackage envA manufacturingProfile none manufacturingGroups

def pkgB : ESGReportPackage :=
  mkPackage envB manufacturingProfile none manufacturingGroups

theorem c8_witness :
    pkgA.stakeholder_map = pkgB.stakeholder_map ∧
    pkgA.materiality_matrix = pkgB.materiality_matrix ∧
    pkgA.package_id ≠ pkgB.package_id := by
  have h := c8_two_runs envA envB manufacturingProfile none pkgA pkgB
    (by rw [executeWF_eq,
      show default_groups manufacturingProfile =
        Except.ok manufacturingGroups from rfl]; rfl)
    (by rw [executeWF_eq,
      show default_groups manufacturingProfile =
        Except.ok manufacturingGroups from rfl]; rfl)
  exact ⟨h.1, h.2.1, h.2.2.2.2.2.2 (by decide)⟩

/-! ### Claim C9 -/

/-- Claim C9: the compiled narrative lists the stakeholder bullets, the
policy-alignment summaries, the peer-benchmark summaries and the
appendix index as contiguous blocks that are order-preserving images
(`map` of the list, `map` of an order-preserving `filter`) of the input
lists — no re-sorting anywhere. -/
theorem c9_report_order (c : CompanyProfile) (ss : List Stakeholder)
    (m : MaterialityMatrix) (ds : List ProcessDocument) :
    ∃ pre mid1 mid2 mid3 : List String,
      compose_lines c ss m ds =
        pre ++ ss.map stakeholderLine ++ mid1 ++
        (ds.filter (fun d => d.category == "policy_alignment")).map
          docSummaryLine ++ mid2 ++
        (ds.filter (fun d => d.category == "peer_benchmark")).map
          docSummaryLine ++ mid3 ++ ds.map docIndexLine := by
  refine ⟨[c.name ++ " " ++ toString c.reporting_year ++
      "年可持续发展报告草案", "一、报告概览",
      "公司概况：" ++ orDefault c.description "（待补充企业描述）",
      "发展战略：" ++ orDefault c.strategy_focus "（待补充战略重点）",
      "二、治理与管理体系 (对应SSE 2.1 / GRI 2-9)",
      "董事会及管理层负责ESG的职责已梳理，正在完善年度考核机制。",
      "三、利益相关方沟通 (对应SSE 4.2 / GRI 3-1)",
      "主要利益相关方列表："],
    ["四、重要性评估与议题矩阵", "高影响 / 高重要议题："] ++
      (pyDictGet m.quadrant_summary labelHH []).map topicBullet ++
      ["五、政策对标与改进建议"],
    ["六、同业对标启示"],
    ["七、下一步行动计划",
     "结合SSE《可持续发展报告披露指引与编写指南》与GRI标准，将形成指标数据收集计划、" ++
       "管理制度更新计划以及对外披露的时间安排。",
     "附录：过程性文件索引"], ?_⟩
  simp [compose_lines, List.append_assoc]

/-! ### Claim C10 -/

/-- Claim C10: a successful run returns a package whose `company` field
is exactly the supplied profile (the embedding is pure, so the profile
value itself is unmodified), and whose `stakeholder_map`,
`materiality_matrix` and `process_documents` fields are exactly the
values accumulated in the context at the moment the terminal
report-compiler step runs. -/
theorem c10_frame (env : RunEnv) (p : CompanyProfile)
    (ps : Option (List Peer)) (pkg : ESGReportPackage)
    (h : executeWF env p ps = Except.ok pkg) :
    pkg.company = p ∧
    ∀ ctx : AgentContext,
      runAgents [stakeholderCall, materialityCall, policyCall env,
        peerCall env] (seedContext p ps) = Except.ok ctx →
      ctx.company = some p ∧
      ctx.stakeholder_map = some pkg.stakeholder_map ∧
      ctx.materiality_matrix = some pkg.materiality_matrix ∧
      ctx.process_documents = some pkg.process_documents := by
  rw [executeWF_eq] at h
  cases hdg : default_groups p with
  | error e =>
    rw [hdg] at h
    simp at h
  | ok groups =>
    rw [hdg] at h
    simp only [Except.ok.injEq] at h
    subst h
    refine ⟨rfl, ?_⟩
    intro ctx hctx
    rw [runAgentsFour_eq, hdg] at hctx
    simp only [Except.ok.injEq] at hctx
    subst hctx
    exact ⟨rfl, rfl, rfl, rfl⟩

/-- The context before the terminal step in the `envA` run. -/
def ctxA : AgentContext :=
  ctxBeforeReport envA manufacturingProfile none manufacturingGroups

theorem c10_witness :
    pkgA.company = manufacturingProfile ∧
    ctxA.company = some manufacturingProfile ∧
    ctxA.stakeholder_map = some pkgA.stakeholder_map ∧
    ctxA.materiality_matrix = some pkgA.materiality_matrix ∧
    ctxA.process_documents = some pkgA.process_documents := by
  have h := c10_frame envA manufacturingProfile none pkgA
    (by rw [executeWF_eq,
      show default_groups manufacturingProfile =
        Except.ok manufacturingGroups from rfl]; rfl)
  exact ⟨h.1, h.2 ctxA (by rw [runAgentsFour_eq,
    show default_groups manufacturingProfile =
      Except.ok manufacturingGroups from rfl]; rfl)⟩
